import Mathlib

/-!
# Verification of the weather-dashboard pipeline

A shallow embedding of `Weather_data_project.py`: the city registry, the
weather-code table, the per-city fetch loop that accumulates `weather_data`,
the `df.empty` guard, the summary statistics (pandas `idxmax`/`idxmin` select
the first occurrence of the extremum), and the divisor of the temperature
panel's color normalization.  Numeric fields are modelled as rationals,
JSON optionality as `Option`, and the fetch as an oracle
`CityInfo → FetchOutcome`.
-/

namespace Weather

/-- One entry of the `cities` registry: name and coordinates. -/
structure CityInfo where
  name : String
  lat : ℚ
  lon : ℚ
deriving DecidableEq, Repr

/-- The static city registry (`cities`, lines 14–25 of the source). -/
def cities : List CityInfo :=
  [⟨"London", 51.5074, -0.1278⟩,
   ⟨"New York", 40.7128, -74.0060⟩,
   ⟨"Tokyo", 35.6762, 139.6503⟩,
   ⟨"Paris", 48.8566, 2.3522⟩,
   ⟨"Sydney", -33.8688, 151.2093⟩,
   ⟨"Mumbai", 19.0760, 72.8777⟩,
   ⟨"Dubai", 25.2048, 55.2708⟩,
   ⟨"Singapore", 1.3521, 103.8198⟩,
   ⟨"Berlin", 52.5200, 13.4050⟩,
   ⟨"Toronto", 43.6532, -79.3832⟩]

/-- The static `weather_codes` dictionary (lines 48–73), in source order. -/
def weather_codes : List (ℤ × String) :=
  [(0, "Clear sky"),
   (1, "Mainly clear"),
   (2, "Partly cloudy"),
   (3, "Overcast"),
   (45, "Foggy"),
   (48, "Foggy"),
   (51, "Light drizzle"),
   (53, "Moderate drizzle"),
   (55, "Dense drizzle"),
   (61, "Slight rain"),
   (63, "Moderate rain"),
   (65, "Heavy rain"),
   (71, "Slight snow"),
   (73, "Moderate snow"),
   (75, "Heavy snow"),
   (77, "Snow grains"),
   (80, "Slight rain showers"),
   (81, "Moderate rain showers"),
   (82, "Violent rain showers"),
   (85, "Slight snow showers"),
   (86, "Heavy snow showers"),
   (95, "Thunderstorm"),
   (96, "Thunderstorm with hail"),
   (99, "Thunderstorm with hail")]

/-- `get_weather_description` (lines 75–77): `weather_codes.get(code, "Unknown")`. -/
def get_weather_description (code : ℤ) : String :=
  (weather_codes.lookup code).getD "Unknown"

/-- The `current` section of a response body; each sub-field may be absent. -/
structure Current where
  temperature_2m : Option ℚ
  relative_humidity_2m : Option ℚ
  wind_speed_10m : Option ℚ
  weather_code : Option ℤ
deriving DecidableEq, Repr

/-- A parsed JSON response body; the top-level `current` key may be absent. -/
structure ApiData where
  current : Option Current
deriving DecidableEq, Repr

/-- Outcome of the HTTP GET for one city: either a request exception
(caught at lines 43–45) or a parsed body. -/
inductive FetchOutcome where
  | requestError
  | ok (d : ApiData)
deriving DecidableEq, Repr

/-- Console lines the fetch loop can print for one city. -/
inductive ConsoleEvent where
  | fetching (name : String)
  | fetchError (name : String)
  | fetched (name : String) (temp : ℚ) (weather : String)
deriving DecidableEq, Repr

/-- `fetch_weather_data` (lines 30–45): on a request exception it prints the
error line naming the city and returns `None`; otherwise the parsed body. -/
def fetch_weather_data (oracle : CityInfo → FetchOutcome) (ci : CityInfo) :
    List ConsoleEvent × Option ApiData :=
  match oracle ci with
  | .requestError => ([ConsoleEvent.fetchError ci.name], none)
  | .ok d => ([], some d)

/-- One row of the aggregated table (the `weather_info` dict, lines 90–102). -/
structure WeatherInfo where
  city : String
  temperature : ℚ
  humidity : ℚ
  wind_speed : ℚ
  weather_code : ℤ
  weather : String
  latitude : ℚ
  longitude : ℚ
  feels_like : ℚ
deriving DecidableEq, Repr

/-- Builds `weather_info` from a city and its `current` section (lines 90–102):
each sub-field falls back to `0` via `.get(_, 0)`, and
`Feels Like = Temperature - Wind Speed * 0.5`. -/
def build_weather_info (ci : CityInfo) (cur : Current) : WeatherInfo :=
  { city := ci.name
    temperature := cur.temperature_2m.getD 0
    humidity := cur.relative_humidity_2m.getD 0
    wind_speed := cur.wind_speed_10m.getD 0
    weather_code := cur.weather_code.getD 0
    weather := get_weather_description (cur.weather_code.getD 0)
    latitude := ci.lat
    longitude := ci.lon
    feels_like := cur.temperature_2m.getD 0 - cur.wind_speed_10m.getD 0 * 0.5 }

/-- One iteration of the fetch loop (lines 84–105): print the progress line,
fetch, and only when the body is present and has a `current` key build the
record, print the success line and append. -/
def processCity (oracle : CityInfo → FetchOutcome) (ci : CityInfo) :
    List ConsoleEvent × Option WeatherInfo :=
  let fr := fetch_weather_data oracle ci
  match fr.2 with
  | none => (ConsoleEvent.fetching ci.name :: fr.1, none)
  | some d =>
    match d.current with
    | none => (ConsoleEvent.fetching ci.name :: fr.1, none)
    | some cur =>
      let wi := build_weather_info ci cur
      (ConsoleEvent.fetching ci.name :: fr.1
        ++ [ConsoleEvent.fetched ci.name wi.temperature wi.weather], some wi)

/-- The whole fetch loop over a registry: the console transcript and the
accumulated `weather_data` list, in registry order. -/
def runFetchLoop (oracle : CityInfo → FetchOutcome) :
    List CityInfo → List ConsoleEvent × List WeatherInfo
  | [] => ([], [])
  | ci :: rest =>
    ((processCity oracle ci).1 ++ (runFetchLoop oracle rest).1,
     ((processCity oracle ci).2).toList ++ (runFetchLoop oracle rest).2)

/-- The aggregated table (`weather_data` list / DataFrame `df`, lines 80–108). -/
def weather_data (oracle : CityInfo → FetchOutcome) (registry : List CityInfo) :
    List WeatherInfo :=
  (runFetchLoop oracle registry).2

/-- Whether the loop appends a record for this city: the fetch returned a body
and the body has a `current` section (the guard on line 88). -/
def succeeds (oracle : CityInfo → FetchOutcome) (ci : CityInfo) : Bool :=
  ((processCity oracle ci).2).isSome

/-- The top-level phases of the script after the fetch loop. -/
inductive Step where
  | emptyError
  | printTable
  | render
  | saveImage
  | summary
deriving DecidableEq, Repr

/-- The phases the script executes for a given fetch oracle: the `df.empty`
guard (lines 110–112) prints the fatal message and calls `exit()` before the
table print, the six panels, `savefig` and the summary statistics. -/
def pipelineSteps (oracle : CityInfo → FetchOutcome) : List Step :=
  if (weather_data oracle cities).isEmpty then [Step.emptyError]
  else [Step.printTable, Step.render, Step.saveImage, Step.summary]

/-- The `df['Temperature (°C)']` column of the table. -/
def tempColumn (df : List WeatherInfo) : List ℚ :=
  df.map fun wi => wi.temperature

/-- `Series.max()`: greatest value of a column (`0` on the empty table, which
the script never reaches thanks to the `df.empty` guard). -/
def seriesMax (l : List ℚ) : ℚ :=
  l.maximum.unbot' 0

/-- `Series.min()`: least value of a column. -/
def seriesMin (l : List ℚ) : ℚ :=
  l.minimum.untop' 0

/-- Position of the first occurrence of a value in a column (`l.length` when
the value does not occur). -/
def firstIdxOf (a : ℚ) : List ℚ → ℕ
  | [] => 0
  | x :: xs => if x = a then 0 else firstIdxOf a xs + 1

/-- `Series.idxmax()` on the default integer index: position of the first
occurrence of the maximum (pandas returns the first occurrence). -/
def idxmax (l : List ℚ) : ℕ :=
  firstIdxOf (seriesMax l) l

/-- `Series.idxmin()`: position of the first occurrence of the minimum. -/
def idxmin (l : List ℚ) : ℕ :=
  firstIdxOf (seriesMin l) l

/-- `Series.mean()`. -/
def mean (l : List ℚ) : ℚ :=
  l.sum / l.length

/-- The summary statistics printed at lines 229–233. -/
structure SummaryStats where
  avgTemp : ℚ
  maxTemp : ℚ
  minTemp : ℚ
  highestCity : String
  lowestCity : String
  avgHumidity : ℚ
  avgWind : ℚ
deriving Repr

/-- The Summary Reporter (lines 229–233): means of the three columns, the
extreme temperatures, and `df.loc[idxmax/idxmin, 'City']`. -/
def summaryStats (df : List WeatherInfo) : SummaryStats :=
  { avgTemp := mean (tempColumn df)
    maxTemp := seriesMax (tempColumn df)
    minTemp := seriesMin (tempColumn df)
    highestCity := (df.map fun wi => wi.city).getD (idxmax (tempColumn df)) ""
    lowestCity := (df.map fun wi => wi.city).getD (idxmin (tempColumn df)) ""
    avgHumidity := mean (df.map fun wi => wi.humidity)
    avgWind := mean (df.map fun wi => wi.wind_speed) }

/-- The divisor of panel 1's color normalization (line 131):
`df['Temperature'].max() - df['Temperature'].min()`. -/
def tempColorDivisor (df : List WeatherInfo) : ℚ :=
  seriesMax (tempColumn df) - seriesMin (tempColumn df)

/-! ## Concrete fixtures (the spec's end-to-end scenario and variants) -/

/-- The scenario city "A" at coordinates (0, 0). -/
def cityA : CityInfo := ⟨"A", 0, 0⟩

/-- The scenario city "B" at coordinates (1, 1). -/
def cityB : CityInfo := ⟨"B", 1, 1⟩

/-- The scenario payload for "A": temperature 15, humidity 50, wind 4, code 0. -/
def curA : Current := ⟨some 15, some 50, some 4, some 0⟩

/-- A payload with every sub-field of `current` absent. -/
def curEmpty : Current := ⟨none, none, none, none⟩

/-- A payload with a negative temperature and zero wind speed. -/
def curNeg : Current := ⟨some (-10), some 30, some 0, some 95⟩

/-- A payload whose temperature ties with the scenario payload for "A". -/
def curTie : Current := ⟨some 15, some 60, some 2, some 1⟩

/-- Oracle: every fetch returns the scenario payload for "A". -/
def oracleA : CityInfo → FetchOutcome := fun _ => FetchOutcome.ok ⟨some curA⟩

/-- Oracle: every fetch raises a request exception. -/
def oracleDown : CityInfo → FetchOutcome := fun _ => FetchOutcome.requestError

/-- Oracle of the end-to-end scenario: "B" suffers a network failure, every
other city gets the scenario payload. -/
def oracleAB : CityInfo → FetchOutcome := fun ci =>
  if ci.name = "B" then FetchOutcome.requestError else FetchOutcome.ok ⟨some curA⟩

/-- Oracle: fetches succeed but the body lacks the `current` key. -/
def oracleNoCurrent : CityInfo → FetchOutcome := fun _ => FetchOutcome.ok ⟨none⟩

/-- Oracle: fetches succeed with a `current` section whose sub-fields are all
absent. -/
def oracleEmptyFields : CityInfo → FetchOutcome := fun _ => FetchOutcome.ok ⟨some curEmpty⟩

/-- Oracle: fetches succeed with a negative temperature and zero wind. -/
def oracleNeg : CityInfo → FetchOutcome := fun _ => FetchOutcome.ok ⟨some curNeg⟩

/-- Oracle: "B" gets the negative-temperature payload, every other city the
scenario payload, so a two-city table holds two distinct temperatures. -/
def oracleMixed : CityInfo → FetchOutcome := fun ci =>
  if ci.name = "B" then FetchOutcome.ok ⟨some curNeg⟩ else FetchOutcome.ok ⟨some curA⟩

/-! ## Helper lemmas -/

/-- `dict.get` misses: looking up a key absent from the association list
yields `none`. -/
theorem lookup_eq_none_of_not_mem_keys :
    ∀ (l : List (ℤ × String)) (k : ℤ), k ∉ l.map Prod.fst → l.lookup k = none
  | [], _, _ => rfl
  | (a, b) :: rest, k, h => by
    have hk : (k == a) = false := by
      simp only [beq_eq_false_iff_ne, ne_eq]
      intro hka
      exact h (by simp [hka])
    have hrest : k ∉ rest.map Prod.fst := by
      intro hm
      exact h (by simp [hm])
    simp [List.lookup, hk, lookup_eq_none_of_not_mem_keys rest k hrest]

/-- `dict.get` hits: with pairwise-distinct keys, looking up the key of a
member pair yields its value. -/
theorem lookup_eq_some_of_mem :
    ∀ (l : List (ℤ × String)) (k : ℤ) (v : String),
      (l.map Prod.fst).Nodup → (k, v) ∈ l → l.lookup k = some v
  | [], _, _, _, hm => absurd hm (List.not_mem_nil _)
  | (a, b) :: rest, k, v, hnd, hm => by
    have hnd1 : (a :: rest.map Prod.fst).Nodup := hnd
    have hnd0 : a ∉ rest.map Prod.fst ∧ (rest.map Prod.fst).Nodup := List.nodup_cons.mp hnd1
    rcases List.mem_cons.mp hm with heq | htail
    · have ha : k = a := congrArg Prod.fst heq
      have hb : v = b := congrArg Prod.snd heq
      subst ha
      subst hb
      simp [List.lookup]
    · have hka : (k == a) = false := by
        simp only [beq_eq_false_iff_ne, ne_eq]
        intro hka
        apply hnd0.1
        rw [← hka]
        exact List.mem_map_of_mem Prod.fst htail
      simp [List.lookup, hka, lookup_eq_some_of_mem rest k v hnd0.2 htail]

/-- The record appended by one loop iteration, when present, is
`build_weather_info` of that city and its `current` section. -/
theorem processCity_cases (oracle : CityInfo → FetchOutcome) (ci : CityInfo) :
    (processCity oracle ci).2 = none
    ∨ ∃ cur, (processCity oracle ci).2 = some (build_weather_info ci cur) := by
  cases h : oracle ci with
  | requestError => exact Or.inl (by simp [processCity, fetch_weather_data, h])
  | ok d =>
    cases hc : d.current with
    | none => exact Or.inl (by simp [processCity, fetch_weather_data, h, hc])
    | some cur => exact Or.inr ⟨cur, by simp [processCity, fetch_weather_data, h, hc]⟩

/-- Any record appended by the loop carries the name of its registry city. -/
theorem processCity_city_eq {oracle : CityInfo → FetchOutcome} {ci : CityInfo}
    {wi : WeatherInfo} (h : (processCity oracle ci).2 = some wi) : wi.city = ci.name := by
  rcases processCity_cases oracle ci with h0 | ⟨cur, h0⟩
  · rw [h0] at h; cases h
  · rw [h0] at h
    have := Option.some.inj h
    rw [← this]
    rfl

/-- Unfolding one iteration of the aggregation. -/
theorem weather_data_cons (oracle : CityInfo → FetchOutcome) (ci : CityInfo)
    (rest : List CityInfo) :
    weather_data oracle (ci :: rest)
      = ((processCity oracle ci).2).toList ++ weather_data oracle rest := rfl

/-- Every record of the aggregated table is `build_weather_info` of some city
and `current` section. -/
theorem mem_weather_data_eq_build {oracle : CityInfo → FetchOutcome} {wi : WeatherInfo} :
    ∀ {registry : List CityInfo}, wi ∈ weather_data oracle registry →
      ∃ ci cur, wi = build_weather_info ci cur := by
  intro registry
  induction registry with
  | nil => intro h; exact absurd h (List.not_mem_nil _)
  | cons ci rest ih =>
    intro h
    rw [weather_data_cons] at h
    rcases List.mem_append.mp h with h1 | h2
    · rcases processCity_cases oracle ci with h0 | ⟨cur, h0⟩
      · rw [h0] at h1; exact absurd h1 (List.not_mem_nil _)
      · rw [h0] at h1
        have : wi = build_weather_info ci cur := by simpa using h1
        exact ⟨ci, cur, this⟩
    · exact ih h2

/-- A member value's first index is within bounds. -/
theorem firstIdxOf_lt_length {a : ℚ} :
    ∀ {l : List ℚ}, a ∈ l → firstIdxOf a l < l.length := by
  intro l
  induction l with
  | nil => intro h; exact absurd h (List.not_mem_nil _)
  | cons x xs ih =>
    intro h
    by_cases hx : x = a
    · simp [firstIdxOf, hx]
    · have hmem : a ∈ xs := by
        rcases List.mem_cons.mp h with h1 | h2
        · exact absurd h1.symm hx
        · exact h2
      simp only [firstIdxOf, hx, if_false, List.length_cons]
      exact Nat.succ_lt_succ (ih hmem)

/-- The value found at a member value's first index is that value. -/
theorem getD_firstIdxOf {a : ℚ} :
    ∀ {l : List ℚ}, a ∈ l → l.getD (firstIdxOf a l) 0 = a := by
  intro l
  induction l with
  | nil => intro h; exact absurd h (List.not_mem_nil _)
  | cons x xs ih =>
    intro h
    by_cases hx : x = a
    · simp [firstIdxOf, hx]
    · have hmem : a ∈ xs := by
        rcases List.mem_cons.mp h with h1 | h2
        · exact absurd h1.symm hx
        · exact h2
      simp only [firstIdxOf, hx, if_false, List.getD_cons_succ]
      exact ih hmem

/-- Strictly before a value's first index, the column never holds that value. -/
theorem getD_ne_of_lt_firstIdxOf {a : ℚ} :
    ∀ {l : List ℚ} {j : ℕ}, j < firstIdxOf a l → l.getD j 0 ≠ a := by
  intro l
  induction l with
  | nil => intro j h; exact absurd h (by simp [firstIdxOf])
  | cons x xs ih =>
    intro j h
    by_cases hx : x = a
    · rw [firstIdxOf, if_pos hx] at h
      exact absurd h (Nat.not_lt_zero j)
    · rw [firstIdxOf, if_neg hx] at h
      cases j with
      | zero => simpa using hx
      | succ j =>
        simp only [List.getD_cons_succ]
        exact ih (Nat.lt_of_succ_lt_succ h)

/-- A within-bounds `getD` is a member of the column. -/
theorem getD_mem_of_lt {l : List ℚ} {j : ℕ} (hj : j < l.length) : l.getD j 0 ∈ l := by
  rw [List.getD_eq_getElem l 0 hj]
  exact List.getElem_mem hj

/-- `Series.max()` of a non-empty column is attained and bounds the column. -/
theorem seriesMax_spec (l : List ℚ) (h : l ≠ []) :
    seriesMax l ∈ l ∧ ∀ a ∈ l, a ≤ seriesMax l := by
  obtain ⟨m, hm⟩ := WithBot.ne_bot_iff_exists.mp (List.maximum_ne_bot_of_ne_nil h)
  have hspec := List.maximum_eq_coe_iff.mp hm.symm
  have hsm : seriesMax l = m := by
    unfold seriesMax
    rw [← hm]
    rfl
  rw [hsm]
  exact hspec

/-- `Series.min()` of a non-empty column is attained and bounds the column. -/
theorem seriesMin_spec (l : List ℚ) (h : l ≠ []) :
    seriesMin l ∈ l ∧ ∀ a ∈ l, seriesMin l ≤ a := by
  obtain ⟨m, hm⟩ := WithTop.ne_top_iff_exists.mp (List.minimum_ne_top_of_ne_nil h)
  have hspec := List.minimum_eq_coe_iff.mp hm.symm
  have hsm : seriesMin l = m := by
    unfold seriesMin
    rw [← hm]
    rfl
  rw [hsm]
  exact hspec

/-- A non-empty table has a non-empty temperature column. -/
theorem tempColumn_ne_nil {df : List WeatherInfo} (h : df ≠ []) : tempColumn df ≠ [] := by
  simp only [tempColumn, ne_eq, List.map_eq_nil_iff]
  exact h

/-- The temperature column has one entry per record. -/
theorem tempColumn_length (df : List WeatherInfo) : (tempColumn df).length = df.length :=
  List.length_map df _

/-- The table's city column equals the registry filtered to successful cities. -/
theorem weather_data_map_city (oracle : CityInfo → FetchOutcome) :
    ∀ registry : List CityInfo,
      (weather_data oracle registry).map (fun wi => wi.city)
        = (registry.filter (succeeds oracle)).map CityInfo.name := by
  intro registry
  induction registry with
  | nil => rfl
  | cons ci rest ih =>
    rw [weather_data_cons, List.map_append, ih, List.filter_cons]
    cases h : (processCity oracle ci).2 with
    | none =>
      have hs : succeeds oracle ci = false := by simp [succeeds, h]
      simp [hs, h]
    | some wi =>
      have hs : succeeds oracle ci = true := by simp [succeeds, h]
      have hc := processCity_city_eq h
      simp [hs, h, hc]

/-! ## Claim theorems -/

/-- Claim C4: the weather-code translator is a pure total function: for every
code present in the fixed map it returns that code's documented string, and
for every integer code not in the map it returns "Unknown". -/
theorem translator_total_function (code : ℤ) :
    (∀ s, (code, s) ∈ weather_codes → get_weather_description code = s)
    ∧ (code ∉ weather_codes.map Prod.fst → get_weather_description code = "Unknown") := by
  constructor
  · intro s hs
    have hnd : (weather_codes.map Prod.fst).Nodup := by decide
    unfold get_weather_description
    rw [lookup_eq_some_of_mem weather_codes code s hnd hs]
    rfl
  · intro hnot
    unfold get_weather_description
    rw [lookup_eq_none_of_not_mem_keys weather_codes code hnot]
    rfl

/-- Witness for C4: code 45 is in the map with label "Foggy"; code 7 is not in
the map and resolves to "Unknown". -/
theorem translator_total_function_witness :
    (((45 : ℤ), "Foggy") ∈ weather_codes ∧ (7 : ℤ) ∉ weather_codes.map Prod.fst)
    ∧ get_weather_description 45 = "Foggy" ∧ get_weather_description 7 = "Unknown" :=
  ⟨⟨by decide, by decide⟩,
   (translator_total_function 45).1 "Foggy" (by decide),
   (translator_total_function 7).2 (by decide)⟩

/-- Claim C5 is false as stated: only two codes (96 and 99), not three, map to
"Thunderstorm with hail" in the fixed table. -/
theorem hail_codes_counterexample :
    ((weather_codes.filter fun p => p.2 = "Thunderstorm with hail").map Prod.fst) = [96, 99]
    ∧ ((weather_codes.filter fun p => p.2 = "Thunderstorm with hail").map Prod.fst).length ≠ 3 := by
  constructor
  · decide
  · decide

/-- Claim C5 (amended): exactly two distinct codes (45 and 48) map to "Foggy"
and exactly two distinct codes (96 and 99) map to "Thunderstorm with hail". -/
theorem foggy_and_hail_code_counts :
    ((weather_codes.filter fun p => p.2 = "Foggy").map Prod.fst) = [45, 48]
    ∧ ((weather_codes.filter fun p => p.2 = "Foggy").map Prod.fst).length = 2
    ∧ ((weather_codes.filter fun p => p.2 = "Thunderstorm with hail").map Prod.fst) = [96, 99]
    ∧ ((weather_codes.filter fun p => p.2 = "Thunderstorm with hail").map Prod.fst).length = 2
    ∧ (45 : ℤ) ≠ 48 ∧ (96 : ℤ) ≠ 99 := by
  refine ⟨by decide, by decide, by decide, by decide, by decide, by decide⟩

/-- Claim C2: every record placed in the table satisfies
`feelsLike = temperature − 0.5 × windSpeed`, exactly, whatever the magnitudes
(the builder computes `temperature - windSpeed * 0.5`, which agrees). -/
theorem feels_like_formula (oracle : CityInfo → FetchOutcome)
    (registry : List CityInfo) (wi : WeatherInfo)
    (h : wi ∈ weather_data oracle registry) :
    wi.feels_like = wi.temperature - 0.5 * wi.wind_speed := by
  obtain ⟨ci, cur, rfl⟩ := mem_weather_data_eq_build h
  show cur.temperature_2m.getD 0 - cur.wind_speed_10m.getD 0 * 0.5
      = cur.temperature_2m.getD 0 - 0.5 * cur.wind_speed_10m.getD 0
  ring

/-- Witness for C2, at a negative temperature (−10) with zero wind speed: the
record is in the table and its feels-like value obeys the formula. -/
theorem feels_like_formula_witness :
    build_weather_info cityB curNeg ∈ weather_data oracleNeg [cityB]
    ∧ (build_weather_info cityB curNeg).feels_like
        = (build_weather_info cityB curNeg).temperature
            - 0.5 * (build_weather_info cityB curNeg).wind_speed
    ∧ (build_weather_info cityB curNeg).temperature = -10
    ∧ (build_weather_info cityB curNeg).wind_speed = 0 := by
  have hmem : build_weather_info cityB curNeg ∈ weather_data oracleNeg [cityB] :=
    List.mem_singleton.mpr rfl
  exact ⟨hmem, feels_like_formula oracleNeg [cityB] _ hmem, rfl, rfl⟩

/-- Claim C10: in every record of the table the stored label is the translator
applied to the stored code: `weather = get_weather_description weather_code`. -/
theorem label_matches_code (oracle : CityInfo → FetchOutcome)
    (registry : List CityInfo) (wi : WeatherInfo)
    (h : wi ∈ weather_data oracle registry) :
    wi.weather = get_weather_description wi.weather_code := by
  obtain ⟨ci, cur, rfl⟩ := mem_weather_data_eq_build h
  rfl

/-- Witness for C10: the scenario record for "A" (code 0) carries label
"Clear sky", which is the translation of its stored code. -/
theorem label_matches_code_witness :
    build_weather_info cityA curA ∈ weather_data oracleA [cityA]
    ∧ (build_weather_info cityA curA).weather
        = get_weather_description (build_weather_info cityA curA).weather_code
    ∧ (build_weather_info cityA curA).weather = "Clear sky" := by
  have hmem : build_weather_info cityA curA ∈ weather_data oracleA [cityA] :=
    List.mem_singleton.mpr rfl
  exact ⟨hmem, label_matches_code oracleA [cityA] _ hmem, by decide⟩

/-- Claim C8: when the `current` section is present, a record is produced for
the city, and each individually missing sub-field defaults to 0. -/
theorem record_builder_defaults (oracle : CityInfo → FetchOutcome) (ci : CityInfo)
    (d : ApiData) (cur : Current)
    (h1 : oracle ci = FetchOutcome.ok d) (h2 : d.current = some cur) :
    (processCity oracle ci).2 = some (build_weather_info ci cur)
    ∧ (cur.temperature_2m = none → (build_weather_info ci cur).temperature = 0)
    ∧ (cur.relative_humidity_2m = none → (build_weather_info ci cur).humidity = 0)
    ∧ (cur.wind_speed_10m = none → (build_weather_info ci cur).wind_speed = 0)
    ∧ (cur.weather_code = none → (build_weather_info ci cur).weather_code = 0) := by
  refine ⟨by simp [processCity, fetch_weather_data, h1, h2], ?_, ?_, ?_, ?_⟩
  · intro h0; simp [build_weather_info, h0]
  · intro h0; simp [build_weather_info, h0]
  · intro h0; simp [build_weather_info, h0]
  · intro h0; simp [build_weather_info, h0]

/-- Witness for C8: with every sub-field of `current` absent, the city still
gets a record, and all four extracted fields are 0. -/
theorem record_builder_defaults_witness :
    oracleEmptyFields cityA = FetchOutcome.ok ⟨some curEmpty⟩
    ∧ (processCity oracleEmptyFields cityA).2 = some (build_weather_info cityA curEmpty)
    ∧ (build_weather_info cityA curEmpty).temperature = 0
    ∧ (build_weather_info cityA curEmpty).humidity = 0
    ∧ (build_weather_info cityA curEmpty).wind_speed = 0
    ∧ (build_weather_info cityA curEmpty).weather_code = 0 := by
  have h := record_builder_defaults oracleEmptyFields cityA ⟨some curEmpty⟩ curEmpty rfl rfl
  exact ⟨rfl, h.1, h.2.1 rfl, h.2.2.1 rfl, h.2.2.2.1 rfl, h.2.2.2.2 rfl⟩

/-- Claim C7: a success whose body lacks the `current` key is silently
excluded (only the progress line is printed, no record); a request failure
prints a diagnostic naming the city and is excluded; in both cases the loop
goes on to the remaining cities (the transcript and table of `ci :: rest`
split into the part for `ci` followed by the part for `rest`). -/
theorem missing_current_vs_fetch_failure (oracle : CityInfo → FetchOutcome)
    (ci : CityInfo) (rest : List CityInfo) :
    (oracle ci = FetchOutcome.requestError →
      processCity oracle ci
        = ([ConsoleEvent.fetching ci.name, ConsoleEvent.fetchError ci.name], none))
    ∧ (∀ d, oracle ci = FetchOutcome.ok d → d.current = none →
      processCity oracle ci = ([ConsoleEvent.fetching ci.name], none))
    ∧ (runFetchLoop oracle (ci :: rest)).1
        = (processCity oracle ci).1 ++ (runFetchLoop oracle rest).1
    ∧ (runFetchLoop oracle (ci :: rest)).2
        = ((processCity oracle ci).2).toList ++ (runFetchLoop oracle rest).2 := by
  refine ⟨?_, ?_, rfl, rfl⟩
  · intro h; simp [processCity, fetch_weather_data, h]
  · intro d h1 h2; simp [processCity, fetch_weather_data, h1, h2]

/-- Witness for C7: a missing-`current` success for "A" prints only the
progress line and adds no record; a request failure for "B" prints the
diagnostic naming "B" and adds no record. -/
theorem missing_current_vs_fetch_failure_witness :
    processCity oracleNoCurrent cityA = ([ConsoleEvent.fetching "A"], none)
    ∧ processCity oracleDown cityB
        = ([ConsoleEvent.fetching "B", ConsoleEvent.fetchError "B"], none) :=
  ⟨(missing_current_vs_fetch_failure oracleNoCurrent cityA []).2.1 ⟨none⟩ rfl rfl,
   (missing_current_vs_fetch_failure oracleDown cityB []).1 rfl⟩

/-- Claim C3: when the aggregated table is empty the script prints the fatal
message and halts before the table print, the renderer, `savefig` and the
summary; when it is non-empty the script runs them all, writing the image and
printing the summary. -/
theorem empty_guard_controls_pipeline (oracle : CityInfo → FetchOutcome) :
    (weather_data oracle cities = [] →
      pipelineSteps oracle = [Step.emptyError]
      ∧ Step.render ∉ pipelineSteps oracle
      ∧ Step.saveImage ∉ pipelineSteps oracle
      ∧ Step.summary ∉ pipelineSteps oracle)
    ∧ (weather_data oracle cities ≠ [] →
      pipelineSteps oracle = [Step.printTable, Step.render, Step.saveImage, Step.summary]
      ∧ Step.saveImage ∈ pipelineSteps oracle
      ∧ Step.summary ∈ pipelineSteps oracle
      ∧ Step.emptyError ∉ pipelineSteps oracle) := by
  constructor
  · intro h
    have hs : pipelineSteps oracle = [Step.emptyError] := by
      simp [pipelineSteps, h]
    refine ⟨hs, ?_, ?_, ?_⟩ <;> rw [hs] <;> decide
  · intro h
    have hs : pipelineSteps oracle
        = [Step.printTable, Step.render, Step.saveImage, Step.summary] := by
      simp [pipelineSteps, List.isEmpty_iff, h]
    refine ⟨hs, ?_, ?_, ?_⟩ <;> rw [hs] <;> decide

/-- Witness for C3: with every fetch failing the script stops at the fatal
message; with every fetch succeeding it reaches `savefig` and the summary. -/
theorem empty_guard_controls_pipeline_witness :
    weather_data oracleDown cities = []
    ∧ pipelineSteps oracleDown = [Step.emptyError]
    ∧ weather_data oracleA cities ≠ []
    ∧ Step.saveImage ∈ pipelineSteps oracleA
    ∧ Step.summary ∈ pipelineSteps oracleA :=
  ⟨by decide,
   ((empty_guard_controls_pipeline oracleDown).1 (by decide)).1,
   by decide,
   ((empty_guard_controls_pipeline oracleA).2 (by decide)).2.1,
   ((empty_guard_controls_pipeline oracleA).2 (by decide)).2.2.1⟩

/-- Claim C1: over any registry with pairwise-distinct city names, the table's
rows are exactly the successful cities, in registry order (the city column
equals the filtered registry's name column), so there are exactly N rows for
N successes, no duplicate cities, and no row for any failed city. -/
theorem table_rows_are_successful_cities (oracle : CityInfo → FetchOutcome)
    (registry : List CityInfo) (hnodup : (registry.map CityInfo.name).Nodup) :
    (weather_data oracle registry).map (fun wi => wi.city)
        = (registry.filter (succeeds oracle)).map CityInfo.name
    ∧ (weather_data oracle registry).length = (registry.filter (succeeds oracle)).length
    ∧ ((weather_data oracle registry).map (fun wi => wi.city)).Nodup
    ∧ ∀ ci ∈ registry, succeeds oracle ci = false →
        ∀ wi ∈ weather_data oracle registry, wi.city ≠ ci.name := by
  have hmap := weather_data_map_city oracle registry
  have hsub : List.Sublist ((registry.filter (succeeds oracle)).map CityInfo.name)
      (registry.map CityInfo.name) := (List.filter_sublist registry).map CityInfo.name
  refine ⟨hmap, ?_, ?_, ?_⟩
  · have hlen := congrArg List.length hmap
    simpa using hlen
  · rw [hmap]
    exact hnodup.sublist hsub
  · intro ci hci hfail wi hwi heq
    have h1 : wi.city ∈ (registry.filter (succeeds oracle)).map CityInfo.name := by
      rw [← hmap]
      exact List.mem_map_of_mem _ hwi
    obtain ⟨cj, hcj, hname⟩ := List.mem_map.mp h1
    have hcj2 : cj ∈ registry := List.mem_of_mem_filter hcj
    have hsucc : succeeds oracle cj = true := List.of_mem_filter hcj
    have hname2 : cj.name = ci.name := by rw [hname]; exact heq
    have hcc : cj = ci := List.inj_on_of_nodup_map hnodup hcj2 hci hname2
    rw [hcc, hfail] at hsucc
    cases hsucc

/-- Witness for C1, on the spec's scenario: registry `[A, B]`, "A" succeeds,
"B" fails; the table has exactly the one row for "A". -/
theorem table_rows_are_successful_cities_witness :
    ([cityA, cityB].map CityInfo.name).Nodup
    ∧ (weather_data oracleAB [cityA, cityB]).map (fun wi => wi.city)
        = ([cityA, cityB].filter (succeeds oracleAB)).map CityInfo.name
    ∧ (weather_data oracleAB [cityA, cityB]).length = 1
    ∧ (weather_data oracleAB [cityA, cityB]).map (fun wi => wi.city) = ["A"] :=
  ⟨by decide,
   (table_rows_are_successful_cities oracleAB [cityA, cityB] (by decide)).1,
   by decide, by decide⟩

/-- Claim C6: on a non-empty table the Reporter's `idxmax` points at a
within-bounds row that attains the maximum temperature while every earlier row
stays strictly below it (so ties go to the earliest row), symmetrically for
`idxmin` and the minimum, and the reported city names are the names at those
rows. -/
theorem reporter_picks_earliest_extremes (df : List WeatherInfo) (h : df ≠ []) :
    idxmax (tempColumn df) < df.length
    ∧ (tempColumn df).getD (idxmax (tempColumn df)) 0 = seriesMax (tempColumn df)
    ∧ (∀ j, j < df.length →
        (tempColumn df).getD j 0 ≤ (tempColumn df).getD (idxmax (tempColumn df)) 0)
    ∧ (∀ j, j < idxmax (tempColumn df) →
        (tempColumn df).getD j 0 ≠ (tempColumn df).getD (idxmax (tempColumn df)) 0)
    ∧ idxmin (tempColumn df) < df.length
    ∧ (tempColumn df).getD (idxmin (tempColumn df)) 0 = seriesMin (tempColumn df)
    ∧ (∀ j, j < df.length →
        (tempColumn df).getD (idxmin (tempColumn df)) 0 ≤ (tempColumn df).getD j 0)
    ∧ (∀ j, j < idxmin (tempColumn df) →
        (tempColumn df).getD j 0 ≠ (tempColumn df).getD (idxmin (tempColumn df)) 0)
    ∧ (summaryStats df).highestCity
        = (df.map fun wi => wi.city).getD (idxmax (tempColumn df)) ""
    ∧ (summaryStats df).lowestCity
        = (df.map fun wi => wi.city).getD (idxmin (tempColumn df)) "" := by
  have htne : tempColumn df ≠ [] := tempColumn_ne_nil h
  obtain ⟨hmaxmem, hmaxle⟩ := seriesMax_spec (tempColumn df) htne
  obtain ⟨hminmem, hminle⟩ := seriesMin_spec (tempColumn df) htne
  have hgmax : (tempColumn df).getD (idxmax (tempColumn df)) 0 = seriesMax (tempColumn df) :=
    getD_firstIdxOf hmaxmem
  have hgmin : (tempColumn df).getD (idxmin (tempColumn df)) 0 = seriesMin (tempColumn df) :=
    getD_firstIdxOf hminmem
  refine ⟨?_, hgmax, ?_, ?_, ?_, hgmin, ?_, ?_, rfl, rfl⟩
  · rw [← tempColumn_length df]
    exact firstIdxOf_lt_length hmaxmem
  · intro j hj
    rw [hgmax]
    exact hmaxle _ (getD_mem_of_lt (by rw [tempColumn_length]; exact hj))
  · intro j hj
    rw [hgmax]
    exact getD_ne_of_lt_firstIdxOf hj
  · rw [← tempColumn_length df]
    exact firstIdxOf_lt_length hminmem
  · intro j hj
    rw [hgmin]
    exact hminle _ (getD_mem_of_lt (by rw [tempColumn_length]; exact hj))
  · intro j hj
    rw [hgmin]
    exact getD_ne_of_lt_firstIdxOf hj

/-- Witness for C6: two records for "A" and "B" tie at temperature 15; the
Reporter's highest-temperature city is deterministically "A", the earlier row. -/
theorem reporter_picks_earliest_extremes_witness :
    ([build_weather_info cityA curA, build_weather_info cityB curTie]
        : List WeatherInfo) ≠ []
    ∧ tempColumn [build_weather_info cityA curA, build_weather_info cityB curTie] = [15, 15]
    ∧ idxmax (tempColumn [build_weather_info cityA curA, build_weather_info cityB curTie])
        < ([build_weather_info cityA curA, build_weather_info cityB curTie]
            : List WeatherInfo).length
    ∧ (summaryStats [build_weather_info cityA curA, build_weather_info cityB curTie]).highestCity
        = "A" :=
  ⟨by decide, rfl,
   (reporter_picks_earliest_extremes
      [build_weather_info cityA curA, build_weather_info cityB curTie] (by decide)).1,
   by decide⟩

/-- Claim C9 is false as stated: the spec's own single-city scenario gives a
non-empty table on which the color normalization's divisor is zero. -/
theorem color_divisor_counterexample :
    weather_data oracleA [cityA] ≠ []
    ∧ tempColorDivisor (weather_data oracleA [cityA]) = 0 := by
  refine ⟨by decide, ?_⟩
  show (15 : ℚ) - 15 = 0
  norm_num

/-- Claim C9 (amended): on every non-empty table the divisor of the
temperature-panel color normalization is non-negative, and it is zero exactly
when all records share one temperature — in particular it is zero, not
non-zero, for a single-record table. -/
theorem color_divisor_characterization (df : List WeatherInfo) (h : df ≠ []) :
    0 ≤ tempColorDivisor df
    ∧ (tempColorDivisor df = 0
        ↔ ∀ a ∈ df, ∀ b ∈ df, a.temperature = b.temperature) := by
  have htne : tempColumn df ≠ [] := tempColumn_ne_nil h
  obtain ⟨hmaxmem, hmaxle⟩ := seriesMax_spec (tempColumn df) htne
  obtain ⟨hminmem, hminle⟩ := seriesMin_spec (tempColumn df) htne
  have hle : seriesMin (tempColumn df) ≤ seriesMax (tempColumn df) :=
    hmaxle _ hminmem
  constructor
  · exact sub_nonneg.mpr hle
  · constructor
    · intro h0 a ha b hb
      have hmm : seriesMax (tempColumn df) = seriesMin (tempColumn df) :=
        sub_eq_zero.mp h0
      have hta : a.temperature ∈ tempColumn df := List.mem_map_of_mem _ ha
      have htb : b.temperature ∈ tempColumn df := List.mem_map_of_mem _ hb
      have ha2 : a.temperature = seriesMax (tempColumn df) :=
        le_antisymm (hmaxle _ hta) (hmm ▸ hminle _ hta)
      have hb2 : b.temperature = seriesMax (tempColumn df) :=
        le_antisymm (hmaxle _ htb) (hmm ▸ hminle _ htb)
      rw [ha2, hb2]
    · intro hall
      obtain ⟨a, ha, hmax_eq⟩ := List.mem_map.mp hmaxmem
      obtain ⟨b, hb, hmin_eq⟩ := List.mem_map.mp hminmem
      have hab : a.temperature = b.temperature := hall a ha b hb
      unfold tempColorDivisor
      rw [← hmax_eq, ← hmin_eq, hab, sub_self]

/-- Witness for C9 (amended): a two-record table with temperatures 15 and −10
is non-empty, its divisor is non-negative, and since two records differ the
divisor is non-zero there. -/
theorem color_divisor_characterization_witness :
    weather_data oracleMixed [cityA, cityB] ≠ []
    ∧ 0 ≤ tempColorDivisor (weather_data oracleMixed [cityA, cityB]) :=
  ⟨by decide, (color_divisor_characterization _ (by decide)).1⟩

end Weather
